import Mathlib

/-!
Shallow embedding of the Talk data store (package `data`, file
`src/unnamed/part_000`) and of the HTTP routing table (`src/main.go`) of the
pac-backend repository.

Conventions of the embedding:

* Go `uint` is modelled as `Nat`; the embedded code performs no arithmetic
  that can overflow a machine word (the only arithmetic is the auto-increment
  counter of the `talk` table).
* The relational database behind the gorm handle is modelled as an explicit
  state `DB` holding the `talk` rows, the related rows and the junction
  tables (`talks_at`, `talk_topic`, `talk_date`), plus the auto-increment
  counter for the `talk` primary key.
* A gorm statement chain that can fail on the SQL side is modelled by an
  extra `Option Nat` argument: `none` means the engine executes the
  statements normally, `some e` means the engine fails with a backend fault
  of code `e` (a fault is never a record-not-found error; record-not-found
  is produced by `First`/`Take` from the state itself).
* Go slices are modelled by `GoSlice`, which distinguishes the `nil` slice
  from an allocated empty slice: gorm's `Find` always allocates the
  destination slice (`reflect.MakeSlice` in its query callback), and the
  error paths of the store return the allocated empty literal `[]*Talk{}`,
  so the store never returns a `nil` slice.
* The entities `Person`, `Topic`, `TalkDate`, `Room`, `Event`,
  `Organization` are declared in repository files that are not under src/;
  they are modelled abstractly (an id plus the foreign keys that the
  `Preload` chains of the Talk store traverse), faithful to the relation
  names the store uses.
* gorm v1 `Update` with a struct argument updates only the fields of the
  argument that are not the zero value of their type and that differ from
  the stored row (`convertInterfaceToMap` skips blank fields); the relation
  fields carry `association_autoupdate:false` and are not written by row
  updates. `mergeRow` below embeds exactly this.
* The Go `Talk` struct declares no `validate` struct tags, so the
  `go-playground/validator` instance installed by `NewTalkDBStore` never
  reports a violation; the store functions are parameterised by the
  validator component (`validate` field of `TalkDBStore`) and the concrete
  program instantiates it with `talkValidator`.
-/

namespace Pac

/-- Row of the `talk` table: the scalar (non-relation) fields of the Go
struct `Talk` (`ID`, `Title`, `DurationInMinutes`, `Language`, `Level`).
`TalkLevel` is a string type, so `level` is a `String`.  The relation fields
`Persons`, `Topics`, `TalkDates` live in junction/related tables of `DB`. -/
structure TalkRow where
  id : Nat
  title : String
  durationInMinutes : Nat
  language : String
  level : String
deriving DecidableEq, Repr

/-- The `TalkLevel` constant `BeginnerLevel` from the source. -/
def BeginnerLevel : String := "beginner"

/-- The `TalkLevel` constant `AdvancedLevel` from the source. -/
def AdvancedLevel : String := "advanced"

/-- The `TalkLevel` constant `ExpertLevel` from the source. -/
def ExpertLevel : String := "expert"

/-- The enumeration of declared talk levels; nothing in the store enforces
membership (`TalkLevel` is a bare string). -/
def talkLevels : List String := [BeginnerLevel, AdvancedLevel, ExpertLevel]

/-- Modelled from the spec: the `Person` entity (declared outside src/) is
kept abstract as an id plus the id of its `Organization` relation, which the
store eagerly loads via `Preload ("Persons.Organization")`. -/
structure PersonRow where
  id : Nat
  orgId : Nat
deriving DecidableEq, Repr

/-- Modelled from the spec: the `Topic` entity (declared outside src/) kept
abstract as an id; its `Children` relation is a separate junction list. -/
structure TopicRow where
  id : Nat
deriving DecidableEq, Repr

/-- Modelled from the spec: the `TalkDate` entity (declared outside src/),
kept as its id, the owning `TalkID` foreign key (`foreignkey:TalkID` on the
`TalkDates` field of `Talk`) and the `Room` and `Event` foreign keys that the
store eagerly loads. -/
structure TalkDateRow where
  id : Nat
  talkId : Nat
  roomId : Nat
  eventId : Nat
deriving DecidableEq, Repr

/-- The relational state behind the gorm handle: the `talk` rows, the rows
and junction tables reachable from the Talk store's queries, and the
auto-increment counter of the `talk` primary key. -/
structure DB where
  talks : List TalkRow
  persons : List PersonRow
  topics : List TopicRow
  talkDates : List TalkDateRow
  /-- `many2many:talks_at` junction rows as (talk_id, person_id). -/
  talksAt : List (Nat × Nat)
  /-- `many2many:talk_topic` junction rows as (talk_id, topic_id). -/
  talkTopic : List (Nat × Nat)
  /-- `Topics.Children` relation rows as (parent topic id, child topic id). -/
  topicChildren : List (Nat × Nat)
  nextId : Nat
deriving DecidableEq, Repr

/-- A `Person` as materialised in a query result: its row, and its
`Organization` relation when eagerly loaded (`none` = not loaded). -/
structure LoadedPerson where
  row : PersonRow
  organization : Option Nat
deriving DecidableEq, Repr

/-- A `Topic` as materialised in a query result: its row, and its `Children`
relation when eagerly loaded (`none` = not loaded). -/
structure LoadedTopic where
  row : TopicRow
  children : Option (List Nat)
deriving DecidableEq, Repr

/-- A `TalkDate` as materialised in a query result: its row, and its `Room`
and `Event` relations when eagerly loaded (`none` = not loaded). -/
structure LoadedTalkDate where
  row : TalkDateRow
  room : Option Nat
  event : Option Nat
deriving DecidableEq, Repr

/-- A `Talk` as returned by the store: the scalar row plus each relation
slice, present exactly when the query's `Preload` chain loaded it
(`none` = relation not loaded). -/
structure Talk where
  row : TalkRow
  persons : Option (List LoadedPerson)
  topics : Option (List LoadedTopic)
  talkDates : Option (List LoadedTalkDate)
deriving DecidableEq, Repr

/-- Which `Preload` calls a query chain makes; one flag per preload path
appearing in the source. -/
structure PreloadSpec where
  persons : Bool
  personsOrganization : Bool
  topics : Bool
  topicsChildren : Bool
  talkDates : Bool
  talkDatesRoom : Bool
  talkDatesEvent : Bool
deriving DecidableEq, Repr

/-- The preload chain of `GetTalks`, `GetTalkByID` and `GetTalksByEventID`:
Persons, Persons.Organization, Topics, Topics.Children, TalkDates,
TalkDates.Room, TalkDates.Event. -/
def fullPreload : PreloadSpec :=
  ⟨true, true, true, true, true, true, true⟩

/-- The preload chain of `GetTalksByPersonID`: only Persons,
Persons.Organization and Topics. -/
def personPreload : PreloadSpec :=
  ⟨true, true, true, false, false, false, false⟩

/-- Eager loading of the `Persons` relation of a talk: the persons joined to
it through `talks_at`, each with its `Organization` when that sub-preload is
requested. -/
def loadPersons (db : DB) (withOrg : Bool) (talkId : Nat) : List LoadedPerson :=
  (db.persons.filter (fun p => db.talksAt.any (fun j => j.1 == talkId && j.2 == p.id))).map
    (fun p => ⟨p, if withOrg then some p.orgId else none⟩)

/-- Eager loading of the `Topics` relation of a talk: the topics joined to
it through `talk_topic`, each with its `Children` when requested. -/
def loadTopics (db : DB) (withChildren : Bool) (talkId : Nat) : List LoadedTopic :=
  (db.topics.filter (fun t => db.talkTopic.any (fun j => j.1 == talkId && j.2 == t.id))).map
    (fun t =>
      ⟨t, if withChildren
          then some ((db.topicChildren.filter (fun j => j.1 == t.id)).map (fun j => j.2))
          else none⟩)

/-- Eager loading of the `TalkDates` relation of a talk (rows whose `TalkID`
foreign key is the talk's id), each with its `Room` and `Event` when
requested. -/
def loadTalkDates (db : DB) (withRoom withEvent : Bool) (talkId : Nat) : List LoadedTalkDate :=
  (db.talkDates.filter (fun d => d.talkId == talkId)).map
    (fun d => ⟨d, if withRoom then some d.roomId else none,
                  if withEvent then some d.eventId else none⟩)

/-- Materialise one talk row together with the relations the given preload
chain loads. -/
def loadTalk (db : DB) (ps : PreloadSpec) (r : TalkRow) : Talk :=
  { row := r
    persons := if ps.persons then some (loadPersons db ps.personsOrganization r.id) else none
    topics := if ps.topics then some (loadTopics db ps.topicsChildren r.id) else none
    talkDates := if ps.talkDates
                 then some (loadTalkDates db ps.talkDatesRoom ps.talkDatesEvent r.id)
                 else none }

/-- A Go slice: either the `nil` slice or an allocated slice of elements.
gorm's `Find` always allocates its destination, and the store's error paths
return the allocated empty literal, so the store never produces `.nil`. -/
inductive GoSlice (α : Type) where
  | nil : GoSlice α
  | mk : List α → GoSlice α
deriving DecidableEq, Repr

/-- The elements of a Go slice (the `nil` slice has none). -/
def GoSlice.toList {α : Type} : GoSlice α → List α
  | .nil => []
  | .mk l => l

/-- An error produced by the SQL engine underneath gorm:
`gorm.ErrRecordNotFound` (recognised by `gorm.IsRecordNotFoundError`), a
primary-key uniqueness violation, or any other backend fault. -/
inductive SqlErr where
  | recordNotFound : SqlErr
  | uniqueViolation : SqlErr
  | fault : Nat → SqlErr
deriving DecidableEq, Repr

/-- An error returned by the Talk store: `TalkNotFoundError` wrapping its
cause, a validator error listing the violated fields, or an unclassified
error passed through from the engine. -/
inductive StoreErr where
  | notFound : SqlErr → StoreErr
  | validation : List String → StoreErr
  | unexpected : SqlErr → StoreErr
deriving DecidableEq, Repr

/-- Whether a store result error is a validator (`ValidationFailed`) error. -/
def isValidationErr : Option StoreErr → Bool
  | some (.validation _) => true
  | _ => false

/-- The validator component stored in the `validate` field of `TalkDBStore`:
given a talk it reports `none` (no violation) or the list of violated
fields. -/
abbrev Validator := TalkRow → Option (List String)

/-- The validator actually installed by `NewTalkDBStore`, i.e.
`validator.New()` applied to the Go `Talk` struct: that struct declares no
`validate` struct tags (and its only nested fields are slices, which the
validator does not traverse without a `dive` tag), so `Struct` never
reports a violation. -/
def talkValidator : Validator := fun _ => none

/-- `First`/`Take` on the `talk` table with condition `id = ?`: the first
row with the given primary key, if any. -/
def findRow (db : DB) (id : Nat) : Option TalkRow :=
  db.talks.find? (fun r => r.id == id)

/-- The `UPDATE ... WHERE id = ?` effect on the table: every row with the
given id is replaced by the new row. -/
def replaceRow (db : DB) (id : Nat) (m : TalkRow) : DB :=
  { db with talks := db.talks.map (fun r => if r.id = id then m else r) }

/-- gorm v1 `Update(talk)` semantics over the taken row: each scalar column
is overwritten exactly when the corresponding field of the argument is not
the zero value of its type (`convertInterfaceToMap` skips blank fields;
fields equal to the stored value produce no SET clause, with the same net
result).  The primary key is a column like any other in this code path, so
a non-zero `ID` on the argument rewrites the row's id. -/
def mergeRow (old t : TalkRow) : TalkRow :=
  { id := if t.id = 0 then old.id else t.id
    title := if t.title = "" then old.title else t.title
    durationInMinutes := if t.durationInMinutes = 0 then old.durationInMinutes
                         else t.durationInMinutes
    language := if t.language = "" then old.language else t.language
    level := if t.level = "" then old.level else t.level }

/-- Follows the spec's words, for refinement comparison only: an update that
"fully replaces mutable fields" of the stored row with the values of the
argument (the id stays the stored one). -/
def specFullReplace (old t : TalkRow) : TalkRow :=
  { id := old.id
    title := t.title
    durationInMinutes := t.durationInMinutes
    language := t.language
    level := t.level }

/-- `GetTalks`: `Find` over all talk rows with the full preload chain; on an
engine fault it returns the allocated empty slice together with the error. -/
def getTalks (db : DB) (fail : Option Nat) : GoSlice Talk × Option StoreErr :=
  match fail with
  | some e => (GoSlice.mk [], some (.unexpected (.fault e)))
  | none => (GoSlice.mk (db.talks.map (loadTalk db fullPreload)), none)

/-- `GetTalkByID`: `First` with the full preload chain; a missing row is
wrapped in `TalkNotFoundError`, any other engine error is passed through. -/
def getTalkByID (db : DB) (fail : Option Nat) (id : Nat) : Option Talk × Option StoreErr :=
  match fail with
  | some e => (none, some (.unexpected (.fault e)))
  | none =>
    match findRow db id with
    | none => (none, some (.notFound .recordNotFound))
    | some r => (some (loadTalk db fullPreload r), none)

/-- `UpdateTalk`: validate first; then the chain
`Model.Where("id = ?", id).Take.Update(talk).First(&talk, id)` (an error
anywhere in the chain short-circuits the rest: gorm callbacks do not run on
a scope that already carries an error); finally re-read through
`GetTalkByID(talk.ID)` where `talk` now holds the row `First` re-read.
`failU` is an engine fault injected into the update chain, `failG` one
injected into the final re-read. -/
def updateTalk (validate : Validator) (db : DB) (failU failG : Option Nat)
    (id : Nat) (t : TalkRow) : DB × (Option Talk × Option StoreErr) :=
  match validate t with
  | some fs => (db, (none, some (.validation fs)))
  | none =>
    match failU with
    | some e => (db, (none, some (.unexpected (.fault e))))
    | none =>
      match findRow db id with
      | none => (db, (none, some (.notFound .recordNotFound)))
      | some old =>
        let m := mergeRow old t
        let db1 := replaceRow db id m
        match findRow db1 id with
        | none => (db1, (none, some (.notFound .recordNotFound)))
        | some r => (db1, getTalkByID db1 failG r.id)

/-- `AddTalk`: validate first; then `Create(&talk)` — gorm's create callback
omits the primary key from the INSERT exactly when it is blank (zero), in
which case the engine assigns the next auto-increment id; a non-zero id is
inserted as given and collides with an existing row as a uniqueness
violation.  On success the entity is re-read through `GetTalkByID(talk.ID)`.
`failC` is an engine fault injected into the INSERT, `failG` one injected
into the re-read. -/
def addTalk (validate : Validator) (db : DB) (failC failG : Option Nat)
    (t : TalkRow) : DB × (Option Talk × Option StoreErr) :=
  match validate t with
  | some fs => (db, (none, some (.validation fs)))
  | none =>
    match failC with
    | some e => (db, (none, some (.unexpected (.fault e))))
    | none =>
      if t.id ≠ 0 ∧ (findRow db t.id).isSome then
        (db, (none, some (.unexpected .uniqueViolation)))
      else
        let newId := if t.id = 0 then db.nextId else t.id
        let row := { t with id := newId }
        let db1 := { db with talks := db.talks ++ [row],
                             nextId := max db.nextId newId + 1 }
        (db1, getTalkByID db1 failG newId)

/-- `DeleteTalkByID`: the chain `Model.Where("id = ?", id).Take.Delete` — a
missing row makes `Take` fail with record-not-found (wrapped in
`TalkNotFoundError`, and `Delete` does not run); otherwise the DELETE
removes every row with that id.  The Go `Talk` struct has no `DeletedAt`
column (`gorm.Model` is commented out), so gorm performs a plain hard
DELETE, not a soft delete. -/
def deleteTalkByID (db : DB) (fail : Option Nat) (id : Nat) : DB × Option StoreErr :=
  match fail with
  | some e => (db, some (.unexpected (.fault e)))
  | none =>
    match findRow db id with
    | none => (db, some (.notFound .recordNotFound))
    | some _ => ({ db with talks := db.talks.filter (fun r => !(r.id == id)) }, none)

/-- `GetTalksByEventID`: `Find` with the full preload chain restricted by
`id IN (SELECT talk_id FROM talk_date WHERE event_id = ?)`. -/
def getTalksByEventID (db : DB) (fail : Option Nat) (eventID : Nat) :
    GoSlice Talk × Option StoreErr :=
  match fail with
  | some e => (GoSlice.mk [], some (.unexpected (.fault e)))
  | none =>
    (GoSlice.mk ((db.talks.filter
        (fun r => db.talkDates.any (fun d => d.talkId == r.id && d.eventId == eventID))).map
        (loadTalk db fullPreload)), none)

/-- `GetTalksByPersonID`: `Find` with only the Persons,
Persons.Organization and Topics preloads, restricted by
`id IN (SELECT talk_id FROM talks_at WHERE person_id = ?)`. -/
def getTalksByPersonID (db : DB) (fail : Option Nat) (personID : Nat) :
    GoSlice Talk × Option StoreErr :=
  match fail with
  | some e => (GoSlice.mk [], some (.unexpected (.fault e)))
  | none =>
    (GoSlice.mk ((db.talks.filter
        (fun r => db.talksAt.any (fun j => j.1 == r.id && j.2 == personID))).map
        (loadTalk db personPreload)), none)

/-- An HTTP method, as used by the routing table in `main.go`. -/
inductive HttpMethod where
  | get | post | put | del
deriving DecidableEq, Repr

/-- A middleware of the `middleware` package, as referenced from `main.go`. -/
inductive Middleware where
  | enforceJsonContentType | oidc
deriving DecidableEq, Repr

/-- The `oidcChain` of `main.go`: `alice.New(middleware.OIDC(...))`. -/
def oidcChain : List Middleware := [.oidc]

/-- The `jsonChain` of `main.go`:
`alice.New(middleware.EnforceJsonContentType, middleware.OIDCMiddleware(...))`. -/
def jsonChain : List Middleware := [.enforceJsonContentType, .oidc]

/-- One entry of the routing table: method, path template, the middleware
chain the handler is wrapped in (empty when the handler is registered
bare), and the handler's name. -/
structure Route where
  method : HttpMethod
  path : String
  chain : List Middleware
  handler : String
deriving DecidableEq, Repr

/-- `sm.Handle("/locations", oidcChain.Then(GetLocations)).Methods("GET")`. -/
def getLocationsRoute : Route := ⟨.get, "/locations", oidcChain, "GetLocations"⟩

/-- `sm.Handle("/locations/{id:[0-9]+}", GetLocation).Methods("GET")` — note
the handler is registered without any middleware chain. -/
def getLocationRoute : Route := ⟨.get, "/locations/\x7bid:[0-9]+\x7d", [], "GetLocation"⟩

/-- `sm.Handle("/locations", jsonChain.Then(CreateLocation)).Methods("POST")`. -/
def createLocationRoute : Route := ⟨.post, "/locations", jsonChain, "CreateLocation"⟩

/-- `sm.Handle("/locations/{id:[0-9]+}", jsonChain.Then(UpdateLocation)).Methods("PUT")`. -/
def updateLocationRoute : Route := ⟨.put, "/locations/\x7bid:[0-9]+\x7d", jsonChain, "UpdateLocation"⟩

/-- `sm.Handle("/locations/{id:[0-9]+}", DeleteLocation).Methods("DELETE")` —
note the handler is registered without any middleware chain. -/
def deleteLocationRoute : Route := ⟨.del, "/locations/\x7bid:[0-9]+\x7d", [], "DeleteLocation"⟩

/-- The routing table of `main.go` (entity routes; the health, callback and
metrics endpoints are out of the claims' scope). -/
def routes : List Route :=
  [getLocationsRoute, getLocationRoute, createLocationRoute,
   updateLocationRoute, deleteLocationRoute]

/-- The aspects of an HTTP request the middleware chains inspect: whether it
carries a bearer token that verifies against the OIDC provider, and whether
its Content-Type is application/json. -/
structure Request where
  hasValidBearerToken : Bool
  contentTypeIsJson : Bool
deriving DecidableEq, Repr

/-- A response body: empty, or the output of a named entity handler (which
is the only place entity data can come from). -/
inductive RespBody where
  | empty : RespBody
  | entityData : String → RespBody
deriving DecidableEq, Repr

/-- An HTTP response: status code and body. -/
structure Response where
  status : Nat
  body : RespBody
deriving DecidableEq, Repr

/-- Modelled from the spec: the `middleware` package is not under src/.
Per spec §4.4, the OIDC middleware rejects a request whose bearer token is
missing, malformed or fails verification with 401 and does not invoke the
next handler; `EnforceJsonContentType` (spec §4.4 last paragraph) rejects a
request without a JSON Content-Type with 415.  `some status` means the
middleware rejects with that status, `none` means it forwards the request. -/
def applyMiddleware : Middleware → Request → Option Nat
  | .oidc, rq => if rq.hasValidBearerToken then none else some 401
  | .enforceJsonContentType, rq => if rq.contentTypeIsJson then none else some 415

/-- Run a middleware chain left to right; the first rejection wins. -/
def runChain : List Middleware → Request → Option Nat
  | [], _ => none
  | m :: ms, rq =>
    match applyMiddleware m rq with
    | some st => some st
    | none => runChain ms rq

/-- Serve a request on a route: a middleware rejection produces that status
with an empty body (no entity data); otherwise the wrapped handler runs and
its output is the only entity data in the response. -/
def serve (rt : Route) (rq : Request) : Response :=
  match runChain rt.chain rq with
  | some st => ⟨st, .empty⟩
  | none => ⟨200, .entityData rt.handler⟩

/-- The empty database (fresh auto-increment counter). -/
def db0 : DB := ⟨[], [], [], [], [], [], [], 1⟩

/-- A one-talk database used by concrete witnesses. -/
def rowA : TalkRow := ⟨1, "intro", 30, "en", "beginner"⟩

/-- A database holding `rowA` together with one person (with organization),
one topic (with a child), and one talk date, all attached to talk 1. -/
def db1 : DB :=
  { talks := [rowA]
    persons := [⟨5, 9⟩]
    topics := [⟨3⟩]
    talkDates := [⟨11, 1, 2, 4⟩]
    talksAt := [(1, 5)]
    talkTopic := [(1, 3)]
    topicChildren := [(3, 6)]
    nextId := 2 }

/-- No result of `GetTalkByID` carries a validator error: its errors are a
wrapped `TalkNotFoundError` or a passed-through engine error. -/
theorem getTalkByID_not_validation (db : DB) (f : Option Nat) (i : Nat) :
    isValidationErr (getTalkByID db f i).2 = false := by
  unfold getTalkByID
  cases f with
  | some e => rfl
  | none => cases h : findRow db i <;> simp [h, isValidationErr]

/-- C1: the claim is false on the code at a concrete input: a talk with
empty title, empty language, zero duration and a level outside the declared
enumeration passes validation, `AddTalk` returns no error, and the row is
persisted. -/
theorem c1_counterexample :
    (⟨0, "", 0, "", "novice"⟩ : TalkRow).title = "" ∧
    (⟨0, "", 0, "", "novice"⟩ : TalkRow).language = "" ∧
    (⟨0, "", 0, "", "novice"⟩ : TalkRow).durationInMinutes = 0 ∧
    (⟨0, "", 0, "", "novice"⟩ : TalkRow).level ∉ talkLevels ∧
    (addTalk talkValidator db0 none none ⟨0, "", 0, "", "novice"⟩).2.2 = none ∧
    (addTalk talkValidator db0 none none ⟨0, "", 0, "", "novice"⟩).1.talks
      = [⟨1, "", 0, "", "novice"⟩] := by
  refine ⟨rfl, rfl, rfl, by decide, rfl, rfl⟩

/-- C1 (amended): the Go `Talk` struct declares no `validate` struct tags,
so the validator installed by `NewTalkDBStore` accepts every talk — a talk
missing a required field or with a level outside the enumeration included —
and `AddTalk`/`UpdateTalk` never return a `ValidationFailed` error. -/
theorem c1_no_validation (t : TalkRow) (db : DB) (fC fG fU : Option Nat) (id : Nat) :
    talkValidator t = none ∧
    isValidationErr (addTalk talkValidator db fC fG t).2.2 = false ∧
    isValidationErr (updateTalk talkValidator db fU fG id t).2.2 = false := by
  refine ⟨rfl, ?_, ?_⟩
  · unfold addTalk
    cases fC with
    | some e => rfl
    | none =>
      by_cases h : t.id ≠ 0 ∧ (findRow db t.id).isSome
      · simp only [talkValidator, if_pos h]
        rfl
      · simp only [talkValidator, if_neg h]
        exact getTalkByID_not_validation _ _ _
  · unfold updateTalk
    cases fU with
    | some e => rfl
    | none =>
      cases h1 : findRow db id with
      | none => simp [h1, isValidationErr, talkValidator]
      | some old =>
        simp only [talkValidator, h1]
        cases h2 : findRow (replaceRow db id (mergeRow old t)) id with
        | none => simp [h2, isValidationErr]
        | some r => simp only [h2]; exact getTalkByID_not_validation _ _ _

/-- C2: for an id with no matching row (and a talk that passes validation),
`GetTalkByID`, `UpdateTalk` and `DeleteTalkByID` each return
`TalkNotFoundError` wrapping the engine's record-not-found cause — never an
unexpected error — and leave the state unchanged. -/
theorem c2_missing_id_not_found (db : DB) (id : Nat) (t : TalkRow)
    (hmiss : findRow db id = none) (_hv : talkValidator t = none) :
    getTalkByID db none id = (none, some (.notFound .recordNotFound)) ∧
    updateTalk talkValidator db none none id t
      = (db, (none, some (.notFound .recordNotFound))) ∧
    deleteTalkByID db none id = (db, some (.notFound .recordNotFound)) := by
  refine ⟨?_, ?_, ?_⟩ <;>
    simp [getTalkByID, updateTalk, deleteTalkByID, talkValidator, hmiss]

/-- Concrete instance of `c2_missing_id_not_found`: id 1 is absent from the
empty database and all three operations report the wrapped not-found error. -/
theorem c2_witness :
    getTalkByID db0 none 1 = (none, some (.notFound .recordNotFound)) ∧
    updateTalk talkValidator db0 none none 1 rowA
      = (db0, (none, some (.notFound .recordNotFound))) ∧
    deleteTalkByID db0 none 1 = (db0, some (.notFound .recordNotFound)) :=
  c2_missing_id_not_found db0 1 rowA rfl rfl

/-- C5: a request on `GET /locations` whose bearer token is missing or
invalid is rejected by the OIDC chain with 401 and an empty body (no entity
data), while `GET /locations/{id}` and `DELETE /locations/{id}` are
registered without any middleware chain, so their handlers run for every
request — the same token-less request included. -/
theorem c5_auth_asymmetry (rq : Request) (h : rq.hasValidBearerToken = false) :
    serve getLocationsRoute rq = ⟨401, .empty⟩ ∧
    getLocationRoute.chain = [] ∧
    serve getLocationRoute rq = ⟨200, .entityData "GetLocation"⟩ ∧
    deleteLocationRoute.chain = [] ∧
    serve deleteLocationRoute rq = ⟨200, .entityData "DeleteLocation"⟩ := by
  refine ⟨?_, rfl, rfl, rfl, rfl⟩
  simp [serve, getLocationsRoute, oidcChain, runChain, applyMiddleware, h]

/-- Concrete instance of `c5_auth_asymmetry` at a request without a valid
bearer token. -/
theorem c5_witness :
    serve getLocationsRoute ⟨false, true⟩ = ⟨401, .empty⟩ ∧
    serve getLocationRoute ⟨false, true⟩ = ⟨200, .entityData "GetLocation"⟩ ∧
    serve deleteLocationRoute ⟨false, true⟩ = ⟨200, .entityData "DeleteLocation"⟩ :=
  ⟨(c5_auth_asymmetry ⟨false, true⟩ rfl).1,
   (c5_auth_asymmetry ⟨false, true⟩ rfl).2.2.1,
   (c5_auth_asymmetry ⟨false, true⟩ rfl).2.2.2.2⟩

/-- Replacing the row with a given id by a row carrying the same id is found
by a subsequent primary-key lookup. -/
theorem find?_update_row {l : List TalkRow} {i : Nat} {m old : TalkRow}
    (h : l.find? (fun r => r.id == i) = some old) (hm : m.id = i) :
    (l.map (fun r => if r.id = i then m else r)).find? (fun r => r.id == i) = some m := by
  induction l with
  | nil => simp at h
  | cons a l ih =>
    by_cases ha : a.id = i
    · simp only [List.map_cons, if_pos ha]
      exact List.find?_cons_of_pos _ (by simp [hm])
    · simp only [List.map_cons, if_neg ha]
      rw [List.find?_cons_of_neg _ (by simp [ha])] at h
      rw [List.find?_cons_of_neg _ (by simp [ha])]
      exact ih h

/-- C3: the claim is false on the code at a concrete input: updating talk 1
of `db1` with a talk whose `Language` is the zero value leaves the stored
language `"en"` in place — a merge of non-zero fields, not a full-record
replace. -/
theorem c3_counterexample :
    (updateTalk talkValidator db1 none none 1 ⟨0, "b", 45, "", "advanced"⟩).1.talks
      ≠ [specFullReplace rowA ⟨0, "b", 45, "", "advanced"⟩] ∧
    (updateTalk talkValidator db1 none none 1 ⟨0, "b", 45, "", "advanced"⟩).1.talks
      = [⟨1, "b", 45, "en", "advanced"⟩] := by
  exact ⟨by decide, rfl⟩

/-- C3 (amended): for an existing id and a talk that passes validation and
carries a zero `ID`, `UpdateTalk` merges the non-zero fields of the argument
over the stored row (zero-valued fields keep their stored values), persists
exactly that merged row, and returns the entity as re-read from the updated
state. -/
theorem c3_update_merges (db : DB) (id : Nat) (t old : TalkRow)
    (hfind : findRow db id = some old) (h0 : t.id = 0) :
    updateTalk talkValidator db none none id t
      = (replaceRow db id (mergeRow old t),
         (some (loadTalk (replaceRow db id (mergeRow old t)) fullPreload (mergeRow old t)),
          none)) := by
  have hold : old.id = id := by
    have := List.find?_some hfind
    simpa using this
  have hmid : (mergeRow old t).id = id := by
    simp [mergeRow, h0, hold]
  have h2 : findRow (replaceRow db id (mergeRow old t)) id = some (mergeRow old t) := by
    show (db.talks.map (fun r => if r.id = id then mergeRow old t else r)).find?
        (fun r => r.id == id) = some (mergeRow old t)
    exact find?_update_row hfind hmid
  unfold updateTalk
  simp only [talkValidator, hfind, h2]
  simp [getTalkByID, hmid, h2]

/-- Concrete instance of `c3_update_merges` on `db1`. -/
theorem c3_witness :
    updateTalk talkValidator db1 none none 1 ⟨0, "b", 45, "", "advanced"⟩
      = (replaceRow db1 1 (mergeRow rowA ⟨0, "b", 45, "", "advanced"⟩),
         (some (loadTalk (replaceRow db1 1 (mergeRow rowA ⟨0, "b", 45, "", "advanced"⟩))
                  fullPreload (mergeRow rowA ⟨0, "b", 45, "", "advanced"⟩)),
          none)) :=
  c3_update_merges db1 1 ⟨0, "b", 45, "", "advanced"⟩ rowA rfl rfl

/-- C4: the claim is false on the code at a concrete input: a talk that
passes validation but carries the pre-set id 1 collides with the existing
row 1 of `db1`; `AddTalk` inserts nothing and returns a uniqueness
violation, and no id is assigned by the server. -/
theorem c4_counterexample :
    talkValidator ⟨1, "y", 20, "de", "advanced"⟩ = none ∧
    addTalk talkValidator db1 none none ⟨1, "y", 20, "de", "advanced"⟩
      = (db1, (none, some (.unexpected .uniqueViolation))) := by
  exact ⟨rfl, by decide⟩

/-- C4 (amended): for every talk payload whose `ID` field is zero (and a
fresh auto-increment counter), `AddTalk` appends the row under the
server-assigned id `db.nextId`, returns exactly the entity re-read from the
new state by `GetTalkByID`, and that entity agrees with the input on every
scalar field while its id is the newly assigned one; when no junction row
references the fresh id, its loaded relations are empty. -/
theorem c4_create_roundtrip (db : DB) (t : TalkRow)
    (h0 : t.id = 0) (hfresh : findRow db db.nextId = none) :
    addTalk talkValidator db none none t
      = ({ db with talks := db.talks ++ [{ t with id := db.nextId }],
                   nextId := db.nextId + 1 },
         (some (loadTalk { db with talks := db.talks ++ [{ t with id := db.nextId }],
                                   nextId := db.nextId + 1 }
                  fullPreload { t with id := db.nextId }), none)) ∧
    getTalkByID { db with talks := db.talks ++ [{ t with id := db.nextId }],
                          nextId := db.nextId + 1 } none db.nextId
      = (some (loadTalk { db with talks := db.talks ++ [{ t with id := db.nextId }],
                                  nextId := db.nextId + 1 }
                 fullPreload { t with id := db.nextId }), none) ∧
    ({ t with id := db.nextId } : TalkRow).title = t.title ∧
    ({ t with id := db.nextId } : TalkRow).durationInMinutes = t.durationInMinutes ∧
    ({ t with id := db.nextId } : TalkRow).language = t.language ∧
    ({ t with id := db.nextId } : TalkRow).level = t.level ∧
    ({ t with id := db.nextId } : TalkRow).id = db.nextId := by
  have hfresh' : db.talks.find? (fun r => r.id == db.nextId) = none := hfresh
  have hfind1 : findRow { db with talks := db.talks ++ [{ t with id := db.nextId }],
                                  nextId := db.nextId + 1 } db.nextId
      = some { t with id := db.nextId } := by
    show (db.talks ++ [{ t with id := db.nextId }]).find? (fun r => r.id == db.nextId)
        = some { t with id := db.nextId }
    rw [List.find?_append, hfresh']
    simp
  have hget : getTalkByID { db with talks := db.talks ++ [{ t with id := db.nextId }],
                                    nextId := db.nextId + 1 } none db.nextId
      = (some (loadTalk { db with talks := db.talks ++ [{ t with id := db.nextId }],
                                  nextId := db.nextId + 1 }
                 fullPreload { t with id := db.nextId }), none) := by
    unfold getTalkByID
    rw [hfind1]
  refine ⟨?_, hget, rfl, rfl, rfl, rfl, rfl⟩
  unfold addTalk
  simp only [talkValidator]
  rw [if_neg (by simp [h0])]
  simp [h0, hget]

/-- Concrete instance of `c4_create_roundtrip` on the empty database. -/
theorem c4_witness :
    addTalk talkValidator db0 none none ⟨0, "x", 10, "en", "beginner"⟩
      = ({ db0 with talks := db0.talks ++ [⟨1, "x", 10, "en", "beginner"⟩], nextId := 2 },
         (some (loadTalk { db0 with talks := db0.talks ++ [⟨1, "x", 10, "en", "beginner"⟩],
                                    nextId := 2 }
                  fullPreload ⟨1, "x", 10, "en", "beginner"⟩), none)) :=
  (c4_create_roundtrip db0 ⟨0, "x", 10, "en", "beginner"⟩ rfl rfl).1

/-- C6: deleting an existing id removes its row from the table outright (a
hard delete: the state keeps no trace of the row), and repeating the delete
on the already-deleted id returns the same wrapped record-not-found error —
no crash, no success, no other error kind — leaving the state unchanged. -/
theorem c6_delete_hard_idempotent (db : DB) (id : Nat) (old : TalkRow)
    (hfind : findRow db id = some old) :
    (deleteTalkByID db none id).2 = none ∧
    (∀ r ∈ (deleteTalkByID db none id).1.talks, ¬ r.id = id) ∧
    findRow (deleteTalkByID db none id).1 id = none ∧
    deleteTalkByID (deleteTalkByID db none id).1 none id
      = ((deleteTalkByID db none id).1, some (.notFound .recordNotFound)) := by
  have hdel : deleteTalkByID db none id
      = ({ db with talks := db.talks.filter (fun r => !(r.id == id)) }, none) := by
    unfold deleteTalkByID
    rw [hfind]
  have hmem : ∀ r ∈ db.talks.filter (fun r => !(r.id == id)), ¬ r.id = id := by
    intro r hr
    have := (List.mem_filter.mp hr).2
    simpa using this
  have hnone : (db.talks.filter (fun r => !(r.id == id))).find? (fun r => r.id == id)
      = none := by
    rw [List.find?_eq_none]
    intro x hx
    simpa using hmem x hx
  rw [hdel]
  refine ⟨rfl, hmem, hnone, ?_⟩
  unfold deleteTalkByID
  rw [show findRow { db with talks := db.talks.filter (fun r => !(r.id == id)) } id
      = none from hnone]

/-- Concrete instance of `c6_delete_hard_idempotent` on `db1`. -/
theorem c6_witness :
    (deleteTalkByID db1 none 1).2 = none ∧
    findRow (deleteTalkByID db1 none 1).1 1 = none ∧
    deleteTalkByID (deleteTalkByID db1 none 1).1 none 1
      = ((deleteTalkByID db1 none 1).1, some (.notFound .recordNotFound)) :=
  ⟨(c6_delete_hard_idempotent db1 1 rowA rfl).1,
   (c6_delete_hard_idempotent db1 1 rowA rfl).2.2.1,
   (c6_delete_hard_idempotent db1 1 rowA rfl).2.2.2⟩

/-- C7: `GetTalksByEventID` returns exactly the talks whose id appears in a
`talk_date` row with the given event id, and `GetTalksByPersonID` exactly
those whose id appears in a `talks_at` row with the given person id; an id
associated with no talk yields the empty sequence, and neither query
returns an error. -/
theorem c7_related_queries_exact (db : DB) (eid pid : Nat) :
    (getTalksByEventID db none eid).2 = none ∧
    (∀ lt, lt ∈ (getTalksByEventID db none eid).1.toList ↔
      ∃ r, r ∈ db.talks ∧ (∃ d ∈ db.talkDates, d.talkId = r.id ∧ d.eventId = eid) ∧
        lt = loadTalk db fullPreload r) ∧
    ((∀ d ∈ db.talkDates, d.eventId ≠ eid) →
      (getTalksByEventID db none eid).1.toList = []) ∧
    (getTalksByPersonID db none pid).2 = none ∧
    (∀ lt, lt ∈ (getTalksByPersonID db none pid).1.toList ↔
      ∃ r, r ∈ db.talks ∧ (∃ j ∈ db.talksAt, j.1 = r.id ∧ j.2 = pid) ∧
        lt = loadTalk db personPreload r) ∧
    ((∀ j ∈ db.talksAt, j.2 ≠ pid) →
      (getTalksByPersonID db none pid).1.toList = []) := by
  refine ⟨rfl, ?_, ?_, rfl, ?_, ?_⟩
  · intro lt
    simp only [getTalksByEventID, GoSlice.toList, List.mem_map, List.mem_filter,
      List.any_eq_true, Bool.and_eq_true, beq_iff_eq]
    constructor
    · rintro ⟨r, ⟨hr, d, hd, hdi, hde⟩, rfl⟩
      exact ⟨r, hr, ⟨d, hd, hdi, hde⟩, rfl⟩
    · rintro ⟨r, hr, ⟨d, hd, hdi, hde⟩, rfl⟩
      exact ⟨r, ⟨hr, d, hd, hdi, hde⟩, rfl⟩
  · intro h
    simp only [getTalksByEventID, GoSlice.toList, List.map_eq_nil_iff,
      List.filter_eq_nil_iff]
    intro r _hr
    simp only [List.any_eq_true, Bool.and_eq_true, beq_iff_eq, not_exists, not_and]
    intro d hd _hdi
    exact h d hd
  · intro lt
    simp only [getTalksByPersonID, GoSlice.toList, List.mem_map, List.mem_filter,
      List.any_eq_true, Bool.and_eq_true, beq_iff_eq]
    constructor
    · rintro ⟨r, ⟨hr, j, hj, hji, hjp⟩, rfl⟩
      exact ⟨r, hr, ⟨j, hj, hji, hjp⟩, rfl⟩
    · rintro ⟨r, hr, ⟨j, hj, hji, hjp⟩, rfl⟩
      exact ⟨r, ⟨hr, j, hj, hji, hjp⟩, rfl⟩
  · intro h
    simp only [getTalksByPersonID, GoSlice.toList, List.map_eq_nil_iff,
      List.filter_eq_nil_iff]
    intro r _hr
    simp only [List.any_eq_true, Bool.and_eq_true, beq_iff_eq, not_exists, not_and]
    intro j hj _hji
    exact h j hj

/-- Concrete instance of `c7_related_queries_exact` on `db1`: event 4 and
person 5 select talk 1; the unused event id 99 selects nothing. -/
theorem c7_witness :
    loadTalk db1 fullPreload rowA ∈ (getTalksByEventID db1 none 4).1.toList ∧
    loadTalk db1 personPreload rowA ∈ (getTalksByPersonID db1 none 5).1.toList ∧
    (getTalksByEventID db1 none 99).1.toList = [] :=
  ⟨((c7_related_queries_exact db1 4 5).2.1 (loadTalk db1 fullPreload rowA)).mpr
      ⟨rowA, by decide, ⟨⟨11, 1, 2, 4⟩, by decide, rfl, rfl⟩, rfl⟩,
   ((c7_related_queries_exact db1 4 5).2.2.2.2.1 (loadTalk db1 personPreload rowA)).mpr
      ⟨rowA, by decide, ⟨(1, 5), by decide, rfl, rfl⟩, rfl⟩,
   (c7_related_queries_exact db1 99 5).2.2.1 (by decide)⟩

/-- C8: in both `AddTalk` and `UpdateTalk` the validator component runs
before any database statement: whenever it rejects the talk, the store
returns exactly the validator's error and the state is untouched — in
`UpdateTalk` even when the target id does not exist, so the validator error
takes precedence over the not-found error. -/
theorem c8_validate_before_storage (v : Validator) (db : DB)
    (failU failG failC : Option Nat) (id : Nat) (t : TalkRow) (fs : List String)
    (hv : v t = some fs) :
    updateTalk v db failU failG id t = (db, (none, some (.validation fs))) ∧
    addTalk v db failC failG t = (db, (none, some (.validation fs))) := by
  unfold updateTalk addTalk
  rw [hv]
  exact ⟨rfl, rfl⟩

/-- Concrete instance of `c8_validate_before_storage`: a validator that
rejects every talk short-circuits both operations on the empty database,
where id 1 does not exist. -/
theorem c8_witness :
    findRow db0 1 = none ∧
    updateTalk (fun _ => some ["Title"]) db0 none none 1 rowA
      = (db0, (none, some (.validation ["Title"]))) ∧
    addTalk (fun _ => some ["Title"]) db0 none none rowA
      = (db0, (none, some (.validation ["Title"]))) :=
  ⟨rfl,
   (c8_validate_before_storage (fun _ => some ["Title"]) db0 none none none 1 rowA
      ["Title"] rfl).1,
   (c8_validate_before_storage (fun _ => some ["Title"]) db0 none none none 1 rowA
      ["Title"] rfl).2⟩

/-- Whenever `GetTalkByID` reports an error its entity result is nil. -/
theorem getTalkByID_no_partial (db : DB) (f : Option Nat) (i : Nat) :
    (getTalkByID db f i).2 ≠ none → (getTalkByID db f i).1 = none := by
  unfold getTalkByID
  cases f with
  | some e => intro _; rfl
  | none =>
    cases hf : findRow db i with
    | none => intro _; rfl
    | some r => intro h; simp at h

/-- C9: an operation that reports an error never delivers data beside it:
the list queries pair the error with the allocated empty slice, and the
single-entity operations pair it with a nil entity. -/
theorem c9_no_partial_results (db : DB) (f fG : Option Nat)
    (id eid pid : Nat) (t : TalkRow) :
    ((getTalks db f).2 ≠ none → (getTalks db f).1 = GoSlice.mk []) ∧
    ((getTalksByEventID db f eid).2 ≠ none →
      (getTalksByEventID db f eid).1 = GoSlice.mk []) ∧
    ((getTalksByPersonID db f pid).2 ≠ none →
      (getTalksByPersonID db f pid).1 = GoSlice.mk []) ∧
    ((getTalkByID db f id).2 ≠ none → (getTalkByID db f id).1 = none) ∧
    ((addTalk talkValidator db f fG t).2.2 ≠ none →
      (addTalk talkValidator db f fG t).2.1 = none) ∧
    ((updateTalk talkValidator db f fG id t).2.2 ≠ none →
      (updateTalk talkValidator db f fG id t).2.1 = none) := by
  refine ⟨?_, ?_, ?_, getTalkByID_no_partial db f id, ?_, ?_⟩
  · unfold getTalks
    cases f with
    | some e => intro _; rfl
    | none => intro h; simp at h
  · unfold getTalksByEventID
    cases f with
    | some e => intro _; rfl
    | none => intro h; simp at h
  · unfold getTalksByPersonID
    cases f with
    | some e => intro _; rfl
    | none => intro h; simp at h
  · unfold addTalk
    simp only [talkValidator]
    cases f with
    | some e => intro _; rfl
    | none =>
      by_cases hc : t.id ≠ 0 ∧ (findRow db t.id).isSome
      · rw [if_pos hc]; intro _; rfl
      · rw [if_neg hc]
        exact getTalkByID_no_partial _ _ _
  · unfold updateTalk
    simp only [talkValidator]
    cases f with
    | some e => intro _; rfl
    | none =>
      cases h1 : findRow db id with
      | none => simp only [h1]; intro _; trivial
      | some old =>
        simp only [h1]
        cases h2 : findRow (replaceRow db id (mergeRow old t)) id with
        | none => simp only [h2]; intro _; trivial
        | some r => simp only [h2]; exact getTalkByID_no_partial _ _ _

/-- Concrete instance of `c9_no_partial_results` under an injected engine
fault. -/
theorem c9_witness :
    (getTalks db1 (some 0)).1 = GoSlice.mk [] ∧
    (getTalksByEventID db1 (some 0) 4).1 = GoSlice.mk [] ∧
    (getTalksByPersonID db1 (some 0) 5).1 = GoSlice.mk [] ∧
    (getTalkByID db1 (some 0) 1).1 = none ∧
    (addTalk talkValidator db1 (some 0) none rowA).2.1 = none ∧
    (updateTalk talkValidator db1 (some 0) none 1 rowA).2.1 = none :=
  ⟨(c9_no_partial_results db1 (some 0) none 1 4 5 rowA).1 (by decide),
   (c9_no_partial_results db1 (some 0) none 1 4 5 rowA).2.1 (by decide),
   (c9_no_partial_results db1 (some 0) none 1 4 5 rowA).2.2.1 (by decide),
   (c9_no_partial_results db1 (some 0) none 1 4 5 rowA).2.2.2.1 (by decide),
   (c9_no_partial_results db1 (some 0) none 1 4 5 rowA).2.2.2.2.1 (by decide),
   (c9_no_partial_results db1 (some 0) none 1 4 5 rowA).2.2.2.2.2 (by decide)⟩

/-- C10: every talk returned by `GetTalksByPersonID` has its Persons (with
Organization) and Topics loaded but its Topics.Children and TalkDates (with
Room and Event) unloaded, whereas every talk returned by `GetTalks` or
`GetTalksByEventID` has all of these relations loaded. -/
theorem c10_preload_profiles (db : DB) (pid eid : Nat) :
    (∀ lt ∈ (getTalksByPersonID db none pid).1.toList,
      lt.talkDates = none ∧ lt.persons.isSome ∧ lt.topics.isSome ∧
      (∀ p ∈ lt.persons.getD [], p.organization.isSome) ∧
      (∀ tp ∈ lt.topics.getD [], tp.children = none)) ∧
    (∀ lt ∈ (getTalks db none).1.toList,
      lt.talkDates.isSome ∧ lt.persons.isSome ∧ lt.topics.isSome ∧
      (∀ p ∈ lt.persons.getD [], p.organization.isSome) ∧
      (∀ tp ∈ lt.topics.getD [], tp.children.isSome) ∧
      (∀ d ∈ lt.talkDates.getD [], d.room.isSome ∧ d.event.isSome)) ∧
    (∀ lt ∈ (getTalksByEventID db none eid).1.toList,
      lt.talkDates.isSome ∧
      (∀ tp ∈ lt.topics.getD [], tp.children.isSome) ∧
      (∀ d ∈ lt.talkDates.getD [], d.room.isSome ∧ d.event.isSome)) := by
  refine ⟨?_, ?_, ?_⟩
  · intro lt hmem
    obtain ⟨r, _hr, rfl⟩ := List.mem_map.mp hmem
    refine ⟨rfl, by simp [loadTalk, personPreload], by simp [loadTalk, personPreload],
      ?_, ?_⟩
    · intro p hp
      simp only [loadTalk, personPreload, loadPersons, if_true, Option.getD_some,
        List.mem_map] at hp
      obtain ⟨q, _hq, rfl⟩ := hp
      rfl
    · intro tp htp
      simp only [loadTalk, personPreload, loadTopics, if_true, Option.getD_some,
        List.mem_map] at htp
      obtain ⟨q, _hq, rfl⟩ := htp
      rfl
  · intro lt hmem
    obtain ⟨r, _hr, rfl⟩ := List.mem_map.mp hmem
    refine ⟨by simp [loadTalk, fullPreload], by simp [loadTalk, fullPreload],
      by simp [loadTalk, fullPreload], ?_, ?_, ?_⟩
    · intro p hp
      simp only [loadTalk, fullPreload, loadPersons, if_true, Option.getD_some,
        List.mem_map] at hp
      obtain ⟨q, _hq, rfl⟩ := hp
      rfl
    · intro tp htp
      simp only [loadTalk, fullPreload, loadTopics, if_true, Option.getD_some,
        List.mem_map] at htp
      obtain ⟨q, _hq, rfl⟩ := htp
      rfl
    · intro d hd
      simp only [loadTalk, fullPreload, loadTalkDates, if_true, Option.getD_some,
        List.mem_map] at hd
      obtain ⟨q, _hq, rfl⟩ := hd
      exact ⟨rfl, rfl⟩
  · intro lt hmem
    obtain ⟨r, _hr, rfl⟩ := List.mem_map.mp hmem
    refine ⟨by simp [loadTalk, fullPreload], ?_, ?_⟩
    · intro tp htp
      simp only [loadTalk, fullPreload, loadTopics, if_true, Option.getD_some,
        List.mem_map] at htp
      obtain ⟨q, _hq, rfl⟩ := htp
      rfl
    · intro d hd
      simp only [loadTalk, fullPreload, loadTalkDates, if_true, Option.getD_some,
        List.mem_map] at hd
      obtain ⟨q, _hq, rfl⟩ := hd
      exact ⟨rfl, rfl⟩

/-- Concrete instance of `c10_preload_profiles` on `db1`, where person 5 and
event 4 are attached to talk 1. -/
theorem c10_witness :
    (loadTalk db1 personPreload rowA).talkDates = none ∧
    (loadTalk db1 personPreload rowA).persons.isSome ∧
    (loadTalk db1 fullPreload rowA).talkDates.isSome :=
  ⟨((c10_preload_profiles db1 5 4).1 (loadTalk db1 personPreload rowA) (by decide)).1,
   ((c10_preload_profiles db1 5 4).1 (loadTalk db1 personPreload rowA) (by decide)).2.1,
   ((c10_preload_profiles db1 5 4).2.2 (loadTalk db1 fullPreload rowA) (by decide)).1⟩

end Pac
